import Mathlib

/-!
Shallow embedding of the two screens of the fitsenior repository:
`src/pages/MyClasses.tsx` and `src/pages/PrivateChat.tsx`.

Backend (Supabase) queries are modelled as pure functions over an explicit
database value; fallible calls additionally take an error injection
(`Option String`) mirroring the `{ data, error }` result shape of the SDK —
`some e` means the call fails with message `e`. Timestamps (`created_at`,
ISO-8601 strings whose lexicographic order is chronological) are modelled as
`Nat`. User-facing toasts and backend calls are returned as explicit effect
values so that "no toast is shown" / "no backend call is made" are statable.
-/

namespace FitSenior

/-- A row of the `private_messages` table (`Tables<"private_messages">`). -/
structure Message where
  id : String
  sender_id : String
  recipient_id : String
  content : String
  read : Bool
  created_at : Nat
deriving DecidableEq, Repr

/-- The `Contact` interface of `PrivateChat.tsx` (role tag as a string,
`"student"` or `"professional"`, exactly as in the union type). -/
structure Contact where
  id : String
  name : String
  type : String
  avatar_url : Option String
deriving DecidableEq, Repr

/-- A row of the `enrollments` table, the columns this code reads. -/
structure Enrollment where
  student_id : String
  class_id : String
  status : String
deriving DecidableEq, Repr

/-- A row of the `classes` table, the columns this code reads. -/
structure ClassRow where
  id : String
  professional_id : String
deriving DecidableEq, Repr

/-- A profile row (`professionals` / `students` tables): the columns selected
by the contact-resolver queries (`user_id, full_name, avatar_url`). -/
structure ProfileRow where
  user_id : String
  full_name : String
  avatar_url : Option String
deriving DecidableEq, Repr

/-- The backing-store state the two screens read. -/
structure Db where
  enrollments : List Enrollment
  classes : List ClassRow
  professionals : List ProfileRow
  students : List ProfileRow
deriving Repr

/-! ## MyClasses.tsx: notification toggle -/

/-- Result of one `toggleNotifications` call: the new `notifications` view
state, the toast it emits, and the backend calls it performs.  The source
body (`MyClasses.tsx:83-98`) touches only view state and `toast`, so
`backendCalls` is `[]` by transcription: no `supabase` call appears in it. -/
structure ToggleOutcome where
  notifications : String → Option Bool
  toastTitle : String
  toastDescription : String
  backendCalls : List String

/-- `toggleNotifications` (`MyClasses.tsx:83-98`).  The `notifications` JS
object is modelled as `String → Option Bool` (`none` = absent key, i.e.
`undefined`); `!prev[classId]` is `!` of a falsy-or-boolean value, i.e.
`!((prev classId).getD false)`. -/
def toggleNotifications (classId : String) (prev : String → Option Bool) :
    ToggleOutcome :=
  let newVal : Bool := !((prev classId).getD false)
  { notifications := fun k => if k == classId then some newVal else prev k
    toastTitle :=
      if newVal then "Notificações ativadas" else "Notificações desativadas"
    toastDescription :=
      if newVal then "Você receberá avisos desta turma"
      else "Você não receberá mais avisos desta turma"
    backendCalls := [] }

/-- C10: toggling a class's notification flag twice restores the original
value, each toggle performs no backend call, and each toggle's toast wording
reflects the new flag value, so the second toggle's wording is the opposite
of the first's. -/
theorem C10_toggle_involutive (classId : String) (prev : String → Option Bool)
    (v : Bool) (h : prev classId = some v) :
    (toggleNotifications classId
        (toggleNotifications classId prev).notifications).notifications classId
      = some v ∧
    (toggleNotifications classId prev).backendCalls = [] ∧
    (toggleNotifications classId
        (toggleNotifications classId prev).notifications).backendCalls = [] ∧
    (toggleNotifications classId prev).toastTitle
      = (if v then "Notificações desativadas" else "Notificações ativadas") ∧
    (toggleNotifications classId
        (toggleNotifications classId prev).notifications).toastTitle
      = (if v then "Notificações ativadas" else "Notificações desativadas") := by
  refine ⟨?_, rfl, ?_, ?_, ?_⟩ <;> cases v <;>
    simp [toggleNotifications, h]

/-- Witness for C10 at a concrete input. -/
theorem C10_toggle_involutive_witness :
    ((fun _ : String => some true) "yoga" = some true) ∧
    ((toggleNotifications "yoga"
        (toggleNotifications "yoga" (fun _ => some true)).notifications).notifications "yoga"
      = some true ∧
    (toggleNotifications "yoga" (fun _ => some true)).backendCalls = [] ∧
    (toggleNotifications "yoga"
        (toggleNotifications "yoga" (fun _ => some true)).notifications).backendCalls = [] ∧
    (toggleNotifications "yoga" (fun _ => some true)).toastTitle
      = (if true then "Notificações desativadas" else "Notificações ativadas") ∧
    (toggleNotifications "yoga"
        (toggleNotifications "yoga" (fun _ => some true)).notifications).toastTitle
      = (if true then "Notificações ativadas" else "Notificações desativadas")) :=
  ⟨rfl, C10_toggle_involutive "yoga" (fun _ => some true) true rfl⟩

/-! ## PrivateChat.tsx: Contact Resolver -/

/-- A Supabase `{ data, error }` result: `some e` on the injected error field
means the call fails with message `e`, otherwise the honest rows are
returned. -/
def runQuery {α : Type} (err : Option String) (rows : α) : Except String α :=
  match err with
  | some e => Except.error e
  | none => Except.ok rows

/-- `from("enrollments").select("class_id").eq("student_id", userId)
.eq("status", "active")` against the modelled store. -/
def queryEnrollmentsByStudent (db : Db) (userId : String) : List Enrollment :=
  db.enrollments.filter (fun e => e.student_id == userId && e.status == "active")

/-- `from("classes").select("professional_id").in("id", classIds)`. -/
def queryClassesByIds (db : Db) (classIds : List String) : List ClassRow :=
  db.classes.filter (fun c => classIds.contains c.id)

/-- `from("professionals").select("user_id, full_name, avatar_url")
.in("user_id", ids)`. -/
def queryProfessionalsByIds (db : Db) (ids : List String) : List ProfileRow :=
  db.professionals.filter (fun p => ids.contains p.user_id)

/-- `from("classes").select("id").eq("professional_id", professionalUserId)`. -/
def queryClassesByProfessional (db : Db) (professionalUserId : String) :
    List ClassRow :=
  db.classes.filter (fun c => c.professional_id == professionalUserId)

/-- `from("enrollments").select("student_id").in("class_id", classIds)
.eq("status", "active")`. -/
def queryEnrollmentsByClasses (db : Db) (classIds : List String) :
    List Enrollment :=
  db.enrollments.filter (fun e => classIds.contains e.class_id && e.status == "active")

/-- `from("students").select("user_id, full_name, avatar_url")
.in("user_id", ids)`. -/
def queryStudentsByIds (db : Db) (ids : List String) : List ProfileRow :=
  db.students.filter (fun p => ids.contains p.user_id)

/-- What one contact-resolver invocation leaves behind: the `setContacts`
value, the `console.error` log (if the `catch` ran), the toasts shown (the
resolver shows none: its `catch` only logs), and which backend queries were
issued, in order. -/
structure ResolverOutcome where
  contacts : List Contact
  logged : Option String
  toasts : List String
  queriesRun : List String
deriving DecidableEq, Repr

/-- The backend as seen by `fetchStudentContacts`: the store plus one error
injection per query it can issue. -/
structure StudentBackend where
  db : Db
  enrollErr : Option String := none
  classErr : Option String := none
  profErr : Option String := none

/-- `fetchStudentContacts` (`PrivateChat.tsx:106-162`).  `[...new Set(xs)]`
is modelled by `List.dedup` (both keep exactly one copy of each element;
they may keep different occurrences, but the result is only consumed through
membership by the subsequent `in` filter).  A thrown query error lands in
the `catch`, which logs and sets `[]`; no toast is shown on this path. -/
def fetchStudentContacts (b : StudentBackend) (userId : String) :
    ResolverOutcome :=
  match runQuery b.enrollErr (queryEnrollmentsByStudent b.db userId) with
  | Except.error e => ⟨[], some e, [], ["enrollments"]⟩
  | Except.ok enrollments =>
    if enrollments.length == 0 then ⟨[], none, [], ["enrollments"]⟩
    else
      match runQuery b.classErr
          (queryClassesByIds b.db (enrollments.map (·.class_id))) with
      | Except.error e => ⟨[], some e, [], ["enrollments", "classes"]⟩
      | Except.ok classes =>
        if ((classes.map (·.professional_id)).dedup).length == 0 then
          ⟨[], none, [], ["enrollments", "classes"]⟩
        else
          match runQuery b.profErr (queryProfessionalsByIds b.db
              ((classes.map (·.professional_id)).dedup)) with
          | Except.error e =>
            ⟨[], some e, [], ["enrollments", "classes", "professionals"]⟩
          | Except.ok professionals =>
            ⟨professionals.map (fun p =>
                ⟨p.user_id, p.full_name, "professional", p.avatar_url⟩),
             none, [], ["enrollments", "classes", "professionals"]⟩

/-- The backend as seen by `fetchProfessionalContacts`. -/
structure ProfessionalBackend where
  db : Db
  classErr : Option String := none
  enrollErr : Option String := none
  studentErr : Option String := none

/-- `fetchProfessionalContacts` (`PrivateChat.tsx:164-217`), symmetric to the
student branch: own classes → active enrollments on them → deduplicated
student ids → student profiles. -/
def fetchProfessionalContacts (b : ProfessionalBackend)
    (professionalUserId : String) : ResolverOutcome :=
  match runQuery b.classErr (queryClassesByProfessional b.db professionalUserId) with
  | Except.error e => ⟨[], some e, [], ["classes"]⟩
  | Except.ok classes =>
    if classes.length == 0 then ⟨[], none, [], ["classes"]⟩
    else
      match runQuery b.enrollErr
          (queryEnrollmentsByClasses b.db (classes.map (·.id))) with
      | Except.error e => ⟨[], some e, [], ["classes", "enrollments"]⟩
      | Except.ok enrollments =>
        if ((enrollments.map (·.student_id)).dedup).length == 0 then
          ⟨[], none, [], ["classes", "enrollments"]⟩
        else
          match runQuery b.studentErr (queryStudentsByIds b.db
              ((enrollments.map (·.student_id)).dedup)) with
          | Except.error e => ⟨[], some e, [], ["classes", "enrollments", "students"]⟩
          | Except.ok students =>
            ⟨students.map (fun s => ⟨s.user_id, s.full_name, "student", s.avatar_url⟩),
             none, [], ["classes", "enrollments", "students"]⟩

/-! ## PrivateChat.tsx: Chat Session -/

/-- The `.or(and(sender.eq.A,recipient.eq.B),and(sender.eq.B,recipient.eq.A))`
filter of the history query. -/
def messageBetween (a b : String) (m : Message) : Bool :=
  (m.sender_id == a && m.recipient_id == b) ||
    (m.sender_id == b && m.recipient_id == a)

/-- The sort key of `order("created_at", { ascending: true })`: ISO-8601
`created_at` strings compare lexicographically as their timestamps, modelled
as `Nat`. -/
def createdLe (m1 m2 : Message) : Prop :=
  m1.created_at ≤ m2.created_at

instance : DecidableRel createdLe :=
  fun m1 m2 => Nat.decLe m1.created_at m2.created_at

instance : IsTotal Message createdLe :=
  ⟨fun a b => Nat.le_total a.created_at b.created_at⟩

instance : IsTrans Message createdLe :=
  ⟨fun _ _ _ h1 h2 => Nat.le_trans h1 h2⟩

/-- The history query (`PrivateChat.tsx:222-228`): filter to the two-party
conversation, then `order("created_at", ascending)` (the backend's sorting
algorithm is opaque; any sort satisfying the ascending contract models it). -/
def queryMessages (store : List Message) (a b : String) : List Message :=
  (store.filter (messageBetween a b)).insertionSort createdLe

/-- One row's update under
`update({read: true}).eq("recipient_id", cur).eq("sender_id", sel)
.eq("read", false)` (`PrivateChat.tsx:239-244`). -/
def markReadUpdate (cur sel : String) (m : Message) : Message :=
  if m.recipient_id == cur && m.sender_id == sel && m.read == false then
    { m with read := true }
  else m

/-- What one `fetchMessages` call leaves behind: the in-memory list, the
backing store after the mark-read update, whether that update was issued,
and the toasts shown (this function shows none on any path). -/
structure FetchOutcome where
  uiMessages : List Message
  store : List Message
  markReadCalled : Bool
  toasts : List String
deriving DecidableEq, Repr

/-- `fetchMessages` (`PrivateChat.tsx:219-246`).  `prevUi` is the in-memory
`messages` list before the call; `selected` is `selectedContact`'s id (only
its `.id` is read here); `fetchErr` injects the history query's `error`.  On
error the code logs and returns, touching nothing; otherwise it sets the
list to the query result and, if nonempty, issues the mark-read update. -/
def fetchMessages (store prevUi : List Message) (cur : String)
    (selected : Option String) (fetchErr : Option String) : FetchOutcome :=
  match selected with
  | none => ⟨prevUi, store, false, []⟩
  | some sel =>
    match fetchErr with
    | some _ => ⟨prevUi, store, false, []⟩
    | none =>
      let data := queryMessages store cur sel
      if data.length > 0 then
        ⟨data, store.map (markReadUpdate cur sel), true, []⟩
      else
        ⟨data, store, false, []⟩

/-- JavaScript `String.prototype.trim()`: strip leading and trailing
whitespace.  (Executable model; `String.trim` in the host library computes
the same strings but is opaque to kernel evaluation.) -/
def jsTrim (s : String) : String :=
  ⟨((s.data.dropWhile Char.isWhitespace).reverse.dropWhile
      Char.isWhitespace).reverse⟩

/-- The component state `handleSendMessage` reads and writes. -/
structure SendState where
  messages : List Message
  newMessage : String
  sending : Bool
deriving DecidableEq, Repr

/-- Observable backend / UI effects of a send invocation. -/
inductive SendEffect where
  | insert (sender recipient content : String)
  | toast (title descr : String)
deriving DecidableEq, Repr

/-- Count of `insert` effects in an effect list. -/
def insertCount (effs : List SendEffect) : Nat :=
  (effs.filter (fun e => match e with | SendEffect.insert _ _ _ => true | _ => false)).length

/-- The synchronous prefix of `handleSendMessage` (`PrivateChat.tsx:274-285`):
the guard `!newMessage.trim() || !selectedContact || sending`, then
`setSending(true)` and the issue of the insert.  This is everything that runs
before the insert's `await` yields, so it is the part a second rapid
invocation observes. -/
def sendBegin (cur : String) (sel : Option String) (s : SendState) :
    SendState × List SendEffect :=
  match sel with
  | none => (s, [])
  | some selId =>
    if jsTrim s.newMessage == "" || s.sending then (s, [])
    else ({ s with sending := true },
      [SendEffect.insert cur selId (jsTrim s.newMessage)])

/-- A complete, uninterleaved run of `handleSendMessage`
(`PrivateChat.tsx:274-308`): guard; insert (whose outcome is `insRes`); on
success append the locally synthesized message (`crypto.randomUUID()` = `fid`,
`new Date().toISOString()` = `now`) and clear the input; on failure toast the
error message; `finally setSending(false)`. -/
def handleSendMessage (cur : String) (sel : Option String) (s : SendState)
    (insRes : Except String Unit) (fid : String) (now : Nat) :
    SendState × List SendEffect :=
  match sel with
  | none => (s, [])
  | some selId =>
    if jsTrim s.newMessage == "" || s.sending then (s, [])
    else
      match insRes with
      | Except.error e =>
        ({ s with sending := false },
         [SendEffect.insert cur selId (jsTrim s.newMessage),
          SendEffect.toast "Erro ao enviar mensagem" e])
      | Except.ok _ =>
        ({ messages := s.messages ++
             [⟨fid, cur, selId, jsTrim s.newMessage, false, now⟩],
           newMessage := "",
           sending := false },
         [SendEffect.insert cur selId (jsTrim s.newMessage)])

/-- Handling of one realtime `INSERT` event (`PrivateChat.tsx:251-267`): the
channel's server-side filter is `sender_id=eq.<selected id>` (the event is
delivered to the callback only when the inserted row's sender is the selected
contact); the callback appends the row iff `payload.new.recipient_id ===
currentUserId`. -/
def onInsert (cur selId : String) (ui : List Message) (row : Message) :
    List Message :=
  if row.sender_id == selId then
    if row.recipient_id == cur then ui ++ [row] else ui
  else ui

/-- One realtime channel held open by the screen, identified by the pair the
channel name `private-chat-<cur>-<sel>` encodes. -/
structure ChannelSub where
  cur : String
  sel : String
deriving DecidableEq, Repr

/-- The screen state the subscription-lifecycle effect touches. -/
structure SessionState where
  selectedContact : Option String
  openChannels : List ChannelSub
deriving DecidableEq, Repr

/-- The `useEffect` on `[selectedContact]` (`PrivateChat.tsx:41-46`): when a
contact is selected it calls `fetchMessages()` and `subscribeToMessages()`.
`subscribeToMessages` (`PrivateChat.tsx:248-272`) opens a channel and returns
a cleanup closure calling `supabase.removeChannel(channel)`, but the effect
body discards that return value and itself returns nothing, so no cleanup is
ever registered and no channel is ever removed: selecting a contact only
appends to the set of open channels. -/
def selectContactEffect (cur : String) (s : SessionState)
    (c : Option String) : SessionState :=
  match c with
  | none => { s with selectedContact := none }
  | some sel =>
    { selectedContact := some sel,
      openChannels := s.openChannels ++ [⟨cur, sel⟩] }

/-! ## Claims -/

/-- C1: the subscription-lifecycle effect, evaluated at a concrete run —
select contact `"a"`, then contact `"b"` — leaves two channels open at once,
including the stale channel for the deselected contact `"a"`: the previous
channel is not closed on contact change, because the effect discards the
cleanup closure `subscribeToMessages` returns. -/
theorem C1_stale_channel_remains :
    (selectContactEffect "u"
        (selectContactEffect "u" ⟨none, []⟩ (some "a")) (some "b")).openChannels
      = [⟨"u", "a"⟩, ⟨"u", "b"⟩] ∧
    (selectContactEffect "u"
        (selectContactEffect "u" ⟨none, []⟩ (some "a")) (some "b")).openChannels.length
      = 2 := ⟨rfl, rfl⟩

/-- C9: when the history query for a selected contact returns an error, the
call leaves the in-memory list at its previous value, leaves the store
untouched, issues no mark-read update and shows no toast. -/
theorem C9_fetch_error_silent (store prevUi : List Message)
    (cur sel e : String) :
    fetchMessages store prevUi cur (some sel) (some e)
      = ⟨prevUi, store, false, []⟩ := rfl

/-- C7: a realtime insert event is appended to the in-memory list iff the
row's sender is the selected contact and its recipient is the current user;
when the two parties are distinct, a row sent by the current user is never
appended. -/
theorem C7_realtime_append (cur selId : String) (ui : List Message)
    (row : Message) :
    (onInsert cur selId ui row = ui ++ [row] ↔
        row.sender_id = selId ∧ row.recipient_id = cur) ∧
    (cur ≠ selId → row.sender_id = cur → onInsert cur selId ui row = ui) := by
  constructor
  · constructor
    · intro h
      by_cases h1 : row.sender_id = selId
      · by_cases h2 : row.recipient_id = cur
        · exact ⟨h1, h2⟩
        · simp [onInsert, h1, h2] at h
      · simp [onInsert, h1] at h
    · rintro ⟨h1, h2⟩
      simp [onInsert, h1, h2]
  · intro hne hs
    simp [onInsert, hs]
    intro h
    exact absurd h hne

/-- Witness for C7 at a concrete input: a self-sent row is not appended. -/
theorem C7_realtime_append_witness :
    (("u" : String) ≠ "v") ∧
    (Message.mk "m" "u" "x" "oi" false 3).sender_id = "u" ∧
    onInsert "u" "v" [] (Message.mk "m" "u" "x" "oi" false 3) = [] :=
  ⟨by decide, rfl,
   (C7_realtime_append "u" "v" [] (Message.mk "m" "u" "x" "oi" false 3)).2
     (by decide) rfl⟩

/-- C5: a send whose text trims to empty, or issued with no selected contact
or while a previous send is in flight, changes nothing and performs no
backend call; and of two rapid invocations while the first is unresolved,
only the first issues an insert (the second is a complete no-op), so exactly
one message is persisted. -/
theorem C5_send_guard (cur : String) (sel : Option String) (s : SendState)
    (insRes : Except String Unit) (fid : String) (now : Nat) :
    ((jsTrim s.newMessage = "" ∨ sel = none ∨ s.sending = true) →
       handleSendMessage cur sel s insRes fid now = (s, [])) ∧
    (∀ selId : String, ∀ s0 : SendState, s0.sending = false →
       jsTrim s0.newMessage ≠ "" →
       (sendBegin cur (some selId) s0).1.messages = s0.messages ∧
       sendBegin cur (some selId) (sendBegin cur (some selId) s0).1
         = ((sendBegin cur (some selId) s0).1, []) ∧
       insertCount ((sendBegin cur (some selId) s0).2 ++
           (sendBegin cur (some selId) (sendBegin cur (some selId) s0).1).2)
         = 1) := by
  constructor
  · intro h
    match sel with
    | none => rfl
    | some selId =>
      rcases h with h | h | h
      · simp [handleSendMessage, h]
      · exact absurd h (by simp)
      · simp [handleSendMessage, h]
  · intro selId s0 h0 ht
    refine ⟨?_, ?_, ?_⟩ <;> simp [sendBegin, h0, ht, insertCount]

/-- Witness for C5 at concrete inputs: a whitespace-only send is a no-op, and
a rapid double send issues exactly one insert. -/
theorem C5_send_guard_witness :
    (jsTrim " " = "" ∨ (some "v" : Option String) = none ∨ false = true) ∧
    handleSendMessage "u" (some "v") ⟨[], " ", false⟩ (Except.ok ()) "m" 3
      = (⟨[], " ", false⟩, []) ∧
    (⟨[], "oi", false⟩ : SendState).sending = false ∧
    jsTrim "oi" ≠ "" ∧
    insertCount ((sendBegin "u" (some "v") ⟨[], "oi", false⟩).2 ++
        (sendBegin "u" (some "v")
          (sendBegin "u" (some "v") ⟨[], "oi", false⟩).1).2) = 1 :=
  ⟨Or.inl (by decide),
   (C5_send_guard "u" (some "v") ⟨[], " ", false⟩ (Except.ok ()) "m" 3).1
     (Or.inl (by decide)),
   rfl, by decide,
   ((C5_send_guard "u" (some "v") ⟨[], "oi", false⟩ (Except.ok ()) "m" 3).2
     "v" ⟨[], "oi", false⟩ rfl (by decide)).2.2⟩

/-- C6: with a selected contact, no send in flight and non-whitespace text, a
successful send appends exactly one locally synthesized message (fresh id,
current timestamp, sender = current user, recipient = selected contact,
content = trimmed text) and clears the input; a failed send toasts the error
message and leaves both the message list and the input text unchanged. -/
theorem C6_send_outcomes (cur selId : String) (s : SendState) (fid : String)
    (now : Nat) (hsend : s.sending = false)
    (htext : jsTrim s.newMessage ≠ "") :
    handleSendMessage cur (some selId) s (Except.ok ()) fid now
      = ({ messages := s.messages ++
             [⟨fid, cur, selId, jsTrim s.newMessage, false, now⟩],
           newMessage := "", sending := false },
         [SendEffect.insert cur selId (jsTrim s.newMessage)]) ∧
    (∀ e : String, handleSendMessage cur (some selId) s (Except.error e) fid now
      = ({ s with sending := false },
         [SendEffect.insert cur selId (jsTrim s.newMessage),
          SendEffect.toast "Erro ao enviar mensagem" e])) := by
  constructor
  · simp [handleSendMessage, hsend, htext]
  · intro e
    simp [handleSendMessage, hsend, htext]

/-- Witness for C6 at a concrete input: sending `" oi "` persists and locally
appends the trimmed `"oi"` message and clears the input. -/
theorem C6_send_outcomes_witness :
    (⟨[], " oi ", false⟩ : SendState).sending = false ∧
    jsTrim " oi " ≠ "" ∧
    handleSendMessage "u" (some "v") ⟨[], " oi ", false⟩ (Except.ok ()) "m1" 7
      = (⟨[⟨"m1", "u", "v", "oi", false, 7⟩], "", false⟩,
         [SendEffect.insert "u" "v" "oi"]) :=
  ⟨rfl, by decide,
   (C6_send_outcomes "u" "v" ⟨[], " oi ", false⟩ "m1" 7 rfl (by decide)).1⟩

/-- On the success path the in-memory list is set to the query result on both
branches of the nonemptiness test. -/
theorem fetchMessages_uiMessages (store prevUi : List Message)
    (cur sel : String) :
    (fetchMessages store prevUi cur (some sel) none).uiMessages
      = queryMessages store cur sel := by
  simp only [fetchMessages]
  split <;> rfl

/-- On the success path the store is updated by the mark-read call exactly
when the query result is nonempty. -/
theorem fetchMessages_store (store prevUi : List Message) (cur sel : String) :
    (fetchMessages store prevUi cur (some sel) none).store
      = if 0 < (queryMessages store cur sel).length
        then store.map (markReadUpdate cur sel) else store := by
  simp only [fetchMessages]
  split <;> simp_all

/-- C3: a successful history load sets the in-memory list to exactly the
stored messages between the two parties in either direction, ordered by
creation timestamp ascending. -/
theorem C3_history_load (store prevUi : List Message) (cur sel : String) :
    (fetchMessages store prevUi cur (some sel) none).uiMessages.Perm
        (store.filter (messageBetween cur sel)) ∧
    List.Sorted createdLe
        (fetchMessages store prevUi cur (some sel) none).uiMessages ∧
    (∀ m : Message,
        m ∈ (fetchMessages store prevUi cur (some sel) none).uiMessages ↔
          m ∈ store ∧ ((m.sender_id = cur ∧ m.recipient_id = sel) ∨
            (m.sender_id = sel ∧ m.recipient_id = cur))) := by
  rw [fetchMessages_uiMessages]
  simp only [queryMessages]
  refine ⟨List.perm_insertionSort _ _, List.sorted_insertionSort _ _, ?_⟩
  intro m
  rw [(List.perm_insertionSort createdLe _).mem_iff, List.mem_filter]
  simp [messageBetween]

/-- C8: after a successful history load (with distinct parties), every loaded
message addressed to the current user and still unread is marked read in the
store, and every stored message outside the mark-read filter is carried over
unchanged. -/
theorem C8_mark_read (store prevUi : List Message) (cur sel : String)
    (hne : cur ≠ sel) :
    (∀ m : Message,
        m ∈ (fetchMessages store prevUi cur (some sel) none).uiMessages →
        m.recipient_id = cur → m.read = false →
        { m with read := true } ∈
          (fetchMessages store prevUi cur (some sel) none).store) ∧
    (∀ m : Message, m ∈ store →
        ¬(m.recipient_id = cur ∧ m.sender_id = sel ∧ m.read = false) →
        m ∈ (fetchMessages store prevUi cur (some sel) none).store) := by
  constructor
  · intro m hm hr hrd
    rw [fetchMessages_uiMessages, queryMessages] at hm
    have hlen : 0 < ((store.filter
        (messageBetween cur sel)).insertionSort createdLe).length :=
      List.length_pos_of_mem hm
    have hmem : m ∈ store.filter (messageBetween cur sel) :=
      (List.perm_insertionSort createdLe _).mem_iff.1 hm
    rw [List.mem_filter] at hmem
    obtain ⟨hst, hb⟩ := hmem
    have hsender : m.sender_id = sel := by
      simp only [messageBetween, Bool.or_eq_true, Bool.and_eq_true,
        beq_iff_eq] at hb
      rcases hb with ⟨h1, h2⟩ | ⟨h1, h2⟩
      · exact absurd (hr.symm.trans h2) hne
      · exact h1
    rw [fetchMessages_store, queryMessages, if_pos hlen]
    have hupd : markReadUpdate cur sel m = { m with read := true } := by
      simp [markReadUpdate, hr, hsender, hrd]
    rw [← hupd]
    exact List.mem_map_of_mem _ hst
  · intro m hm hcond
    rw [fetchMessages_store]
    split
    · have hid : markReadUpdate cur sel m = m := by
        unfold markReadUpdate
        split
        · next h =>
          simp only [Bool.and_eq_true, beq_iff_eq] at h
          exact absurd ⟨h.1.1, h.1.2, h.2⟩ hcond
        · rfl
      rw [← hid]
      exact List.mem_map_of_mem _ hm
    · exact hm

/-- Witness for C8 at a concrete input: the one unread inbound message is
read in the store after the load. -/
theorem C8_mark_read_witness :
    (("u" : String) ≠ "v") ∧
    (⟨"m1", "v", "u", "oi", true, 1⟩ : Message) ∈
      (fetchMessages [⟨"m1", "v", "u", "oi", false, 1⟩] [] "u"
        (some "v") none).store :=
  ⟨by decide,
   (C8_mark_read [⟨"m1", "v", "u", "oi", false, 1⟩] [] "u" "v" (by decide)).1
     ⟨"m1", "v", "u", "oi", false, 1⟩ (by decide) rfl rfl⟩

/-- The characterization of a professional reachable from student `uid`:
they own a class referenced by one of the student's active enrollments. -/
def ownsEnrolledClass (db : Db) (uid pid : String) : Prop :=
  ∃ cl ∈ db.classes, cl.professional_id = pid ∧
    ∃ e ∈ db.enrollments, e.student_id = uid ∧ e.status = "active" ∧
      e.class_id = cl.id

instance (db : Db) (uid pid : String) : Decidable (ownsEnrolledClass db uid pid) := by
  unfold ownsEnrolledClass
  infer_instance

/-- Membership in the deduplicated owner-id list computed by the student
branch coincides with owning a class the student is actively enrolled in. -/
theorem mem_studentOwnerIds (db : Db) (uid pid : String) :
    pid ∈ ((queryClassesByIds db ((queryEnrollmentsByStudent db uid).map
        (·.class_id))).map (·.professional_id)).dedup ↔
      ownsEnrolledClass db uid pid := by
  simp [queryClassesByIds, queryEnrollmentsByStudent, ownsEnrolledClass]
  aesop

/-- On an error-free backend the student branch's contact list is the profile
query over the deduplicated owner ids, on every branch of the two emptiness
short-circuits. -/
theorem studentContacts_eq (db : Db) (uid : String) :
    (fetchStudentContacts ⟨db, none, none, none⟩ uid).contacts
      = (queryProfessionalsByIds db (((queryClassesByIds db
            ((queryEnrollmentsByStudent db uid).map (·.class_id))).map
            (·.professional_id)).dedup)).map
          (fun p => ⟨p.user_id, p.full_name, "professional", p.avatar_url⟩) := by
  simp only [fetchStudentContacts, runQuery]
  split
  · next h =>
    have hE : queryEnrollmentsByStudent db uid = [] := by simpa using h
    rw [hE]
    simp [queryClassesByIds, queryProfessionalsByIds]
  · next h =>
    split
    · next h2 =>
      have hP : ((queryClassesByIds db ((queryEnrollmentsByStudent db uid).map
          (·.class_id))).map (·.professional_id)).dedup = [] := by
        simpa using h2
      rw [hP]
      simp [queryProfessionalsByIds]
    · rfl

/-- C2: on an error-free backend, the student-branch resolver output is
exactly the set of professional profiles of the deduplicated owners of the
classes referenced by the student's active enrollments; if the active
enrollment set is empty the resolver stops after the first query with an
empty list, and if the deduplicated owner set is empty the profile query is
never issued and the list is empty. -/
theorem C2_student_contacts (db : Db) (uid : String) :
    (∀ c : Contact,
        c ∈ (fetchStudentContacts ⟨db, none, none, none⟩ uid).contacts ↔
          ∃ p ∈ db.professionals, ownsEnrolledClass db uid p.user_id ∧
            c = ⟨p.user_id, p.full_name, "professional", p.avatar_url⟩) ∧
    (queryEnrollmentsByStudent db uid = [] →
        fetchStudentContacts ⟨db, none, none, none⟩ uid
          = ⟨[], none, [], ["enrollments"]⟩) ∧
    (((queryClassesByIds db ((queryEnrollmentsByStudent db uid).map
          (·.class_id))).map (·.professional_id)).dedup = [] →
        (fetchStudentContacts ⟨db, none, none, none⟩ uid).contacts = [] ∧
        "professionals" ∉
          (fetchStudentContacts ⟨db, none, none, none⟩ uid).queriesRun) := by
  refine ⟨?_, ?_, ?_⟩
  · intro c
    rw [studentContacts_eq]
    simp only [List.mem_map, queryProfessionalsByIds, List.mem_filter]
    constructor
    · rintro ⟨p, ⟨hp, hc⟩, rfl⟩
      exact ⟨p, hp, (mem_studentOwnerIds db uid p.user_id).1 (by simpa using hc),
        rfl⟩
    · rintro ⟨p, hp, howns, rfl⟩
      exact ⟨p, ⟨hp, by simpa using (mem_studentOwnerIds db uid p.user_id).2 howns⟩,
        rfl⟩
  · intro hE
    simp [fetchStudentContacts, runQuery, hE]
  · intro hP
    constructor
    · rw [studentContacts_eq, hP]
      simp [queryProfessionalsByIds]
    · by_cases hE : queryEnrollmentsByStudent db uid = []
      · simp [fetchStudentContacts, runQuery, hE]
      · have h1 : ((queryEnrollmentsByStudent db uid).length == 0) = false := by
          simp [List.length_eq_zero, hE]
        have h2 : ((((queryClassesByIds db
            ((queryEnrollmentsByStudent db uid).map (·.class_id))).map
            (·.professional_id)).dedup).length == 0) = true := by
          simp [hP]
        simp [fetchStudentContacts, runQuery, h1, h2]

/-- Witness for C2: Ana, owner of the one class the student is actively
enrolled in, is resolved as a contact; on an empty store the resolver stops
after the enrollment query. -/
theorem C2_student_contacts_witness :
    ((⟨"ana", "Ana", "professional", none⟩ : Contact) ∈
      (fetchStudentContacts ⟨⟨[⟨"stu", "k", "active"⟩], [⟨"k", "ana"⟩],
          [⟨"ana", "Ana", none⟩], []⟩, none, none, none⟩ "stu").contacts) ∧
    queryEnrollmentsByStudent ⟨[], [], [], []⟩ "stu" = [] ∧
    fetchStudentContacts ⟨⟨[], [], [], []⟩, none, none, none⟩ "stu"
      = ⟨[], none, [], ["enrollments"]⟩ :=
  ⟨((C2_student_contacts ⟨[⟨"stu", "k", "active"⟩], [⟨"k", "ana"⟩],
        [⟨"ana", "Ana", none⟩], []⟩ "stu").1 _).2
      ⟨⟨"ana", "Ana", none⟩, by decide, by decide, rfl⟩,
   rfl,
   (C2_student_contacts ⟨[], [], [], []⟩ "stu").2.1 rfl⟩

/-- Every path of the student branch shows no toast: its `catch` only logs. -/
theorem fetchStudentContacts_toasts (b : StudentBackend) (uid : String) :
    (fetchStudentContacts b uid).toasts = [] := by
  unfold fetchStudentContacts
  repeat' split
  all_goals rfl

/-- Every path of the professional branch shows no toast. -/
theorem fetchProfessionalContacts_toasts (b : ProfessionalBackend)
    (puid : String) :
    (fetchProfessionalContacts b puid).toasts = [] := by
  unfold fetchProfessionalContacts
  repeat' split
  all_goals rfl

/-- If any student-branch query is set to fail, the contact list resolves
empty (the failing step is caught, or an earlier short-circuit already
returned the empty list). -/
theorem fetchStudentContacts_error_contacts (b : StudentBackend)
    (uid : String)
    (h : b.enrollErr ≠ none ∨ b.classErr ≠ none ∨ b.profErr ≠ none) :
    (fetchStudentContacts b uid).contacts = [] := by
  obtain ⟨db, e1, e2, e3⟩ := b
  cases e1 <;> cases e2 <;> cases e3 <;>
    simp_all [fetchStudentContacts, runQuery] <;>
    repeat' split
  all_goals rfl

/-- If any professional-branch query is set to fail, the contact list
resolves empty. -/
theorem fetchProfessionalContacts_error_contacts (b : ProfessionalBackend)
    (puid : String)
    (h : b.classErr ≠ none ∨ b.enrollErr ≠ none ∨ b.studentErr ≠ none) :
    (fetchProfessionalContacts b puid).contacts = [] := by
  obtain ⟨db, e1, e2, e3⟩ := b
  cases e1 <;> cases e2 <;> cases e3 <;>
    simp_all [fetchProfessionalContacts, runQuery] <;>
    repeat' split
  all_goals rfl

/-- C4: a failure injected into any step of either resolver branch yields an
empty contact list and no user-facing toast — the failure is only logged
(shown here for the first step of each branch, whose error message reaches
`console.error` verbatim). -/
theorem C4_resolver_error_policy (bs : StudentBackend) (uid : String)
    (bp : ProfessionalBackend) (puid : String) :
    ((bs.enrollErr ≠ none ∨ bs.classErr ≠ none ∨ bs.profErr ≠ none) →
       (fetchStudentContacts bs uid).contacts = [] ∧
       (fetchStudentContacts bs uid).toasts = []) ∧
    (∀ e : String, bs.enrollErr = some e →
       (fetchStudentContacts bs uid).logged = some e) ∧
    ((bp.classErr ≠ none ∨ bp.enrollErr ≠ none ∨ bp.studentErr ≠ none) →
       (fetchProfessionalContacts bp puid).contacts = [] ∧
       (fetchProfessionalContacts bp puid).toasts = []) ∧
    (∀ e : String, bp.classErr = some e →
       (fetchProfessionalContacts bp puid).logged = some e) := by
  refine ⟨fun h => ⟨fetchStudentContacts_error_contacts bs uid h,
      fetchStudentContacts_toasts bs uid⟩, ?_,
    fun h => ⟨fetchProfessionalContacts_error_contacts bp puid h,
      fetchProfessionalContacts_toasts bp puid⟩, ?_⟩
  · intro e he
    simp [fetchStudentContacts, runQuery, he]
  · intro e he
    simp [fetchProfessionalContacts, runQuery, he]

/-- Witness for C4 at concrete failing backends. -/
theorem C4_resolver_error_policy_witness :
    ((some "boom" : Option String) ≠ none) ∧
    ((some "x" : Option String) ≠ none) ∧
    (fetchStudentContacts ⟨⟨[], [], [], []⟩, some "boom", none, none⟩
        "u").contacts = [] ∧
    (fetchStudentContacts ⟨⟨[], [], [], []⟩, some "boom", none, none⟩
        "u").toasts = [] ∧
    (fetchProfessionalContacts ⟨⟨[], [], [], []⟩, some "x", none, none⟩
        "p").contacts = [] ∧
    (fetchProfessionalContacts ⟨⟨[], [], [], []⟩, some "x", none, none⟩
        "p").toasts = [] ∧
    (fetchStudentContacts ⟨⟨[], [], [], []⟩, some "boom", none, none⟩
        "u").logged = some "boom" := by
  have h := C4_resolver_error_policy
    ⟨⟨[], [], [], []⟩, some "boom", none, none⟩ "u"
    ⟨⟨[], [], [], []⟩, some "x", none, none⟩ "p"
  exact ⟨by simp, by simp,
    (h.1 (Or.inl (by simp))).1, (h.1 (Or.inl (by simp))).2,
    (h.2.2.1 (Or.inl (by simp))).1, (h.2.2.1 (Or.inl (by simp))).2,
    h.2.1 "boom" rfl⟩

end FitSenior
